import Mathlib

/-!
Verification of the value-encoding layer of `snowflake-rs`
(`src/snowflake-api/src/bindings.rs` and `src/snowflake-api/src/requests.rs`).

Modelling conventions:
* `BytesMut` is only ever written through `write_str`, `write_char` and
  `serde_json::to_writer`, all of which append valid UTF-8; the buffer is
  therefore modelled as a `String`, and `String::from_utf8` on such a buffer
  always succeeds.
* Rust `Result<Option<()>, BindingError>` becomes
  `Except BindingError (String × Option Unit)`, the `String` being the whole
  buffer after the call (the mutable out-parameter made explicit).
* The trait-object universe of encodable values reachable in the source is
  closed, so the `ToSql` implementers are embedded as one inductive `Value`:
  `String` and `&str` both map to `Value.str`, `char` to `Value.chr`, the
  eight integer impls from `serializable_impl!` to `Value.int` indexed by
  width, the two float impls to `Value.real` (see its doc comment),
  `Option<T>` to `Value.opt`, `Variant` to `Value.variant`, `Object<T>` to
  `Value.object`, and the chrono impls to `Value.naiveDate` /
  `Value.naiveDateTime`.  The blanket `&T` / `Box<T>` / `Box<dyn ToSql>`
  impls are pure delegation and collapse into the inner value.
-/

namespace Snowflake

/-- Modelled from the spec: the wire type tag enum `SnowflakeType` lives in
`src/snowflake-api/src/responses.rs`, which is not part of the provided
sources; §3 of the spec fixes it as the closed set
Text, Fixed, Real, Variant, Object, UnknownNull, TimestampNtz, TimestampLtz,
TimestampTz. -/
inductive SnowflakeType where
  | text
  | fixed
  | real
  | variant
  | object
  | unknownNull
  | timestampNtz
  | timestampLtz
  | timestampTz
  deriving DecidableEq, Repr

/-- `BindingError` from `bindings.rs`: `WrongType`, `Utf8EncodingError`
(`FromUtf8Error`) and `SerialisationError` (`serde_json::Error`, carried
here as its message). -/
inductive BindingError where
  | wrongType (snowflake : SnowflakeType) (rust : String)
  | utf8EncodingError
  | serialisationError (msg : String)
  deriving DecidableEq, Repr

/-- The eight integer widths that receive a `serializable_impl!` expansion. -/
inductive IntWidth where
  | i8 | u8 | i16 | u16 | i32 | u32 | i64 | u64
  deriving DecidableEq, Repr

/-- Inclusive value range of each width, as a (lo, hi) pair. -/
def IntWidth.range : IntWidth → Int × Int
  | .i8  => (-(2 ^ 7), 2 ^ 7 - 1)
  | .u8  => (0, 2 ^ 8 - 1)
  | .i16 => (-(2 ^ 15), 2 ^ 15 - 1)
  | .u16 => (0, 2 ^ 16 - 1)
  | .i32 => (-(2 ^ 31), 2 ^ 31 - 1)
  | .u32 => (0, 2 ^ 32 - 1)
  | .i64 => (-(2 ^ 63), 2 ^ 63 - 1)
  | .u64 => (0, 2 ^ 64 - 1)

/-- `i` is representable in width `w`. -/
def IntWidth.inRange (w : IntWidth) (i : Int) : Prop :=
  w.range.1 ≤ i ∧ i ≤ w.range.2

instance (w : IntWidth) (i : Int) : Decidable (w.inRange i) := by
  unfold IntWidth.inRange; infer_instance

/-- The two floating-point widths (`f32`, `f64`). -/
inductive FloatWidth where
  | f32 | f64
  deriving DecidableEq, Repr

/-- Decimal digit character for `d < 10`. -/
def digitChar (d : Nat) : Char := Char.ofNat (48 + d)

/-- Fuel-indexed accumulator loop producing the most-significant-first
decimal digits of `n` in front of `acc`; `fuel > n` always suffices since
the argument shrinks by a factor of ten each step. -/
def natToDigitsCore : Nat → Nat → List Char → List Char
  | 0, _, acc => acc
  | fuel + 1, n, acc =>
    if n < 10 then digitChar n :: acc
    else natToDigitsCore fuel (n / 10) (digitChar (n % 10) :: acc)

/-- Most-significant-first decimal digits of `n`, the digit list underlying
Rust's `u64::to_string` et al. -/
def natToDigits (n : Nat) : List Char := natToDigitsCore (n + 1) n []

/-- Rust's `to_string` on any integer type: canonical decimal, `-` prefix
exactly for negative values. -/
def intToDecimal (i : Int) : String :=
  if i < 0 then "-" ++ ⟨natToDigits i.natAbs⟩ else ⟨natToDigits i.natAbs⟩

/-- chrono's `NaiveDateTime`, restricted to the fields the `%Y-%m-%d
%H:%M:%S.%.3f` format reads.  `nano` is the sub-second part in nanoseconds. -/
structure NaiveDateTime where
  year : Nat
  month : Nat
  day : Nat
  hour : Nat
  minute : Nat
  second : Nat
  nano : Nat
  deriving DecidableEq, Repr

/-- chrono's `NaiveDate` (fields read by `%Y-%m-%d`). -/
structure NaiveDate where
  year : Nat
  month : Nat
  day : Nat
  deriving DecidableEq, Repr

/-- Zero-pad the decimal rendering of `n` to at least `k` characters
(chrono's `%m`, `%d`, `%H`, `%M`, `%S` use `k = 2`, `%Y` uses `k = 4`). -/
def padNat (k n : Nat) : String :=
  let s : String := ⟨natToDigits n⟩
  ⟨List.replicate (k - s.length) '0'⟩ ++ s

/-- chrono rendering of `%Y-%m-%d` (the `NaiveDate` impl's format string). -/
def formatNaiveDate (d : NaiveDate) : String :=
  padNat 4 d.year ++ "-" ++ padNat 2 d.month ++ "-" ++ padNat 2 d.day

/-- chrono rendering of the `NaiveDateTime` impl's format string
`"%Y-%m-%d %H:%M:%S.%.3f"`.  Per chrono's specifier table, `%.3f` renders
the fraction truncated to milliseconds WITH its own leading dot (`.026`),
so the literal `.` written after `%S` in the format string is followed by a
second dot from `%.3f`. -/
def formatNaiveDateTime (t : NaiveDateTime) : String :=
  padNat 4 t.year ++ "-" ++ padNat 2 t.month ++ "-" ++ padNat 2 t.day ++ " "
    ++ padNat 2 t.hour ++ ":" ++ padNat 2 t.minute ++ ":" ++ padNat 2 t.second
    ++ "." ++ ("." ++ padNat 3 (t.nano / 1000000))

/-- The closed universe of `ToSql` implementers reachable in the source.

* `real w rendered`: an `f32`/`f64` whose `self.to_string()` result is
  `rendered`; the float-to-decimal conversion itself is outside this
  embedding (floating point), but its `to_sql` shape `Ok(Some(()))` and tag
  `Real` do not depend on it.
* `object j`: `Object<T>(x)` where `j` is the outcome of
  `serde_json::to_string(&x)` — `Except.ok s` the JSON text, `Except.error m`
  a `serde_json::Error` with message `m`. -/
inductive Value where
  | str (s : String)
  | chr (c : Char)
  | int (w : IntWidth) (i : Int)
  | real (w : FloatWidth) (rendered : String)
  | opt (o : Option Value)
  | variant (v : Value)
  | object (j : Except String String)
  | naiveDate (d : NaiveDate)
  | naiveDateTime (t : NaiveDateTime)

/-- `ToSql::sql_type` of each implementer (`sql_type!` expansions and the
`Option`/`Variant`/`Object` impls in `bindings.rs`). -/
def sql_type : Value → SnowflakeType
  | .str _ => .text
  | .chr _ => .text
  | .int _ _ => .fixed
  | .real _ _ => .real
  | .opt none => .unknownNull
  | .opt (some v) => sql_type v
  | .variant _ => .variant
  | .object _ => .object
  | .naiveDate _ => .text
  | .naiveDateTime _ => .timestampNtz

/-- `ToSql::to_sql` of each implementer.  Result: full buffer after the
call, paired with the `Option<()>` presence flag.  The `Option<T>` impl's
`Some` arm runs the inner `to_sql`, discards its flag via `?`, and returns
`Ok(Some(()))`; the `None` arm writes nothing and returns `Ok(None)`.
`Variant` delegates wholesale; `Object` streams the serde_json output or
propagates the serialisation error. -/
def to_sql : Value → String → Except BindingError (String × Option Unit)
  | .str s, out => .ok (out ++ s, some ())
  | .chr c, out => .ok (out ++ c.toString, some ())
  | .int _ i, out => .ok (out ++ intToDecimal i, some ())
  | .real _ rendered, out => .ok (out ++ rendered, some ())
  | .opt none, out => .ok (out, none)
  | .opt (some v), out =>
      match to_sql v out with
      | .error e => .error e
      | .ok r => .ok (r.1, some ())
  | .variant v, out => to_sql v out
  | .object (.ok s), out => .ok (out ++ s, some ())
  | .object (.error m), _ => .error (.serialisationError m)
  | .naiveDate d, out => .ok (out ++ formatNaiveDate d, some ())
  | .naiveDateTime t, out => .ok (out ++ formatNaiveDateTime t, some ())

/-- `ToSql::encode_format` of each implementer: `default_encode!` yields
`""`; `Option` forwards the inner hint or defaults to `""`; `Variant`
forwards; `Object` yields `"json"`. -/
def encode_format : Value → String
  | .opt (some v) => encode_format v
  | .variant v => encode_format v
  | .object _ => "json"
  | _ => ""

/-- `BindingValue` from `requests.rs`. -/
inductive BindingValue where
  | singleBind (s : String)
  | multiBind (l : List String)
  deriving DecidableEq, Repr

/-- `ParameterBinding` from `requests.rs`. -/
structure ParameterBinding where
  type_ : Option SnowflakeType
  fmt : Option String
  value : BindingValue
  deriving DecidableEq, Repr

/-- `impl TryFrom<Box<dyn ToSql>> for ParameterBinding` from `requests.rs`:
fresh buffer, run `to_sql` (its presence flag is discarded by the `?`),
freeze, decode as UTF-8 (always succeeds here, see the module comment), and
build the record with `type_: Some(value.sql_type())`, `fmt: None`, and
`value: SingleBind(params)`. -/
def tryFrom (value : Value) : Except BindingError ParameterBinding :=
  match to_sql value "" with
  | .error e => .error e
  | .ok r =>
      .ok { type_ := some (sql_type value)
            fmt := none
            value := .singleBind r.1 }

/-! ### Decimal-rendering lemmas -/

theorem natToDigitsCore_eq (n : Nat) :
    ∀ fuel acc, n < fuel → natToDigitsCore fuel n acc = natToDigits n ++ acc := by
  induction n using Nat.strong_induction_on with
  | _ n ih =>
    intro fuel acc hfuel
    match fuel with
    | 0 => omega
    | f + 1 =>
      by_cases h : n < 10
      · simp [natToDigitsCore, natToDigits, h]
      · simp only [natToDigitsCore, natToDigits, if_neg h]
        rw [ih (n / 10) (by omega) f _ (by omega),
          ih (n / 10) (by omega) n _ (by omega)]
        simp

theorem natToDigits_lt (n : Nat) (h : n < 10) : natToDigits n = [digitChar n] := by
  simp [natToDigits, natToDigitsCore, h]

theorem natToDigits_ge (n : Nat) (h : 10 ≤ n) :
    natToDigits n = natToDigits (n / 10) ++ [digitChar (n % 10)] := by
  have h' : ¬ n < 10 := by omega
  have step : natToDigits n = natToDigitsCore n (n / 10) [digitChar (n % 10)] := by
    rw [natToDigits]
    simp [natToDigitsCore, h']
  rw [step, natToDigitsCore_eq (n / 10) n _ (by omega)]

theorem natToDigits_ne_nil (n : Nat) : natToDigits n ≠ [] := by
  by_cases h : n < 10
  · simp [natToDigits_lt n h]
  · simp [natToDigits_ge n (by omega)]

theorem digitChar_toNat (d : Nat) (h : d < 10) : (digitChar d).toNat = 48 + d := by
  interval_cases d <;> decide

theorem natToDigits_mem (n : Nat) :
    ∀ c ∈ natToDigits n, 48 ≤ c.toNat ∧ c.toNat ≤ 57 := by
  induction n using Nat.strong_induction_on with
  | _ n ih =>
    by_cases h : n < 10
    · rw [natToDigits_lt n h]
      intro c hc
      simp at hc
      subst hc
      rw [digitChar_toNat n h]
      omega
    · rw [natToDigits_ge n (by omega)]
      intro c hc
      rcases List.mem_append.1 hc with hc | hc
      · exact ih (n / 10) (by omega) c hc
      · simp at hc
        subst hc
        rw [digitChar_toNat _ (by omega)]
        omega

/-- The numeric value read back from a most-significant-first digit list:
the inverse direction pinning `natToDigits` as THE decimal rendering. -/
def digitsToNat (l : List Char) : Nat :=
  l.foldl (fun a c => 10 * a + (c.toNat - 48)) 0

theorem digitsToNat_natToDigits (n : Nat) : digitsToNat (natToDigits n) = n := by
  induction n using Nat.strong_induction_on with
  | _ n ih =>
    by_cases h : n < 10
    · rw [natToDigits_lt n h]
      simp [digitsToNat]
      rw [digitChar_toNat n h]
      omega
    · rw [natToDigits_ge n (by omega)]
      unfold digitsToNat
      rw [List.foldl_append]
      simp only [List.foldl_cons, List.foldl_nil]
      have hm := ih (n / 10) (by omega)
      unfold digitsToNat at hm
      rw [hm, digitChar_toNat (n % 10) (by omega)]
      omega

theorem natToDigits_head (n : Nat) :
    n ≠ 0 → (natToDigits n).head? ≠ some '0' := by
  induction n using Nat.strong_induction_on with
  | _ n ih =>
    intro hn
    by_cases h : n < 10
    · rw [natToDigits_lt n h]
      simp only [List.head?_cons, ne_eq, Option.some.injEq]
      intro hc
      have h48 : (digitChar n).toNat = 48 + n := digitChar_toNat n h
      rw [hc] at h48
      have hz : ('0' : Char).toNat = 48 := by decide
      omega
    · rw [natToDigits_ge n (by omega)]
      obtain ⟨c, l, hl⟩ := List.exists_cons_of_ne_nil (natToDigits_ne_nil (n / 10))
      rw [hl]
      simp only [List.cons_append, List.head?_cons, ne_eq, Option.some.injEq]
      intro hc
      have hrec := ih (n / 10) (by omega) (by omega)
      rw [hl] at hrec
      simp [hc] at hrec

/-! ### Structural facts about the encoder -/

/-- Purity of the buffer discipline: running `to_sql` against any
pre-existing buffer is the fresh-buffer run with the old contents prepended
— the appended bytes, the presence flag and the error are functions of the
logical value alone. -/
theorem to_sql_append (v : Value) (out : String) :
    to_sql v out = (to_sql v "").map (fun r => (out ++ r.1, r.2)) :=
  match v with
  | .str s => by simp [to_sql, Except.map]
  | .chr c => by simp [to_sql, Except.map]
  | .int w i => by simp [to_sql, Except.map]
  | .real w r => by simp [to_sql, Except.map]
  | .opt none => by simp [to_sql, Except.map]
  | .opt (some w) => by
    have ih := to_sql_append w out
    simp only [to_sql, ih]
    cases h : to_sql w "" with
    | error e => rfl
    | ok r => rfl
  | .variant w => to_sql_append w out
  | .object (.ok s) => by simp [to_sql, Except.map]
  | .object (.error m) => by simp [to_sql, Except.map]
  | .naiveDate d => by simp [to_sql, Except.map]
  | .naiveDateTime t => by simp [to_sql, Except.map]

/-- A value that reports absence has written nothing: the buffer comes back
unchanged. -/
theorem absent_writes_nothing (v : Value) (out r : String)
    (h : to_sql v out = .ok (r, none)) : r = out :=
  match v with
  | .str s => by simp [to_sql] at h
  | .chr c => by simp [to_sql] at h
  | .int w i => by simp [to_sql] at h
  | .real w s => by simp [to_sql] at h
  | .opt none => by
    simp [to_sql] at h
    exact h.symm
  | .opt (some w) => by
    simp only [to_sql] at h
    cases hw : to_sql w out with
    | error e => rw [hw] at h; exact absurd h (by simp)
    | ok p => rw [hw] at h; exact absurd h (by simp)
  | .variant w => absent_writes_nothing w out r h
  | .object (.ok s) => by simp [to_sql] at h
  | .object (.error m) => by simp [to_sql] at h
  | .naiveDate d => by simp [to_sql] at h
  | .naiveDateTime t => by simp [to_sql] at h

/-! ### The claims -/

/-- C1, counterexample: the assembler hardcodes `fmt: None` in
`requests.rs` and never calls `encode_format()`, so assembling a
Structured-Object wrapper (here over a value whose JSON serialization is
`[1,2]`) yields `fmt = none` even though its `encode_format()` is
`"json"` — refuting the claim that the binding's `fmt` equals the value's
`encode_format()`. -/
theorem C1_counterexample :
    encode_format (Value.object (.ok "[1,2]")) = "json" ∧
    tryFrom (Value.object (.ok "[1,2]")) =
      .ok { type_ := some .object, fmt := none, value := .singleBind "[1,2]" } ∧
    (none : Option String) ≠ some "json" :=
  ⟨rfl, rfl, by decide⟩

/-- C1, amended: every successfully assembled `ParameterBinding` has
`type` set to the value's `sql_type()` and `fmt` unconditionally absent —
the assembler writes a literal `fmt: None` and never consults
`encode_format()`, so even a Structured-Object wrapper gets an absent
`fmt`. -/
theorem C1_theorem (v : Value) (b : ParameterBinding)
    (h : tryFrom v = .ok b) :
    b.type_ = some (sql_type v) ∧ b.fmt = none := by
  cases hv : to_sql v "" with
  | error e => simp [tryFrom, hv] at h
  | ok r =>
    simp only [tryFrom, hv, Except.ok.injEq] at h
    rw [← h]
    exact ⟨rfl, rfl⟩

/-- C1, witness: the amended claim instantiated on a Structured-Object
wrapper serializing to `[3]`. -/
theorem C1_witness :
    tryFrom (Value.object (.ok "[3]")) =
      .ok { type_ := some .object, fmt := none, value := .singleBind "[3]" } ∧
    ({ type_ := some .object, fmt := none, value := .singleBind "[3]" } :
        ParameterBinding).type_ = some (sql_type (Value.object (.ok "[3]"))) ∧
    ({ type_ := some .object, fmt := none, value := .singleBind "[3]" } :
        ParameterBinding).fmt = none :=
  ⟨rfl, C1_theorem _ _ rfl⟩

/-- C2, counterexample: assembling the absent Nullable produces
`value = SingleBind ""` — an ordinary (empty) text payload, literally the
same binding value the ordinary empty text produces — not a distinct
null marker; moreover a Dynamic-wrapped absent Nullable also reports
absence from `to_sql` yet is assembled with type Variant, not
UnknownNull. -/
theorem C2_counterexample :
    tryFrom (Value.opt none) =
      .ok { type_ := some .unknownNull, fmt := none, value := .singleBind "" } ∧
    tryFrom (Value.str "") =
      .ok { type_ := some .text, fmt := none, value := .singleBind "" } ∧
    to_sql (Value.variant (Value.opt none)) "" = .ok ("", none) ∧
    sql_type (Value.variant (Value.opt none)) = .variant ∧
    SnowflakeType.variant ≠ .unknownNull :=
  ⟨rfl, rfl, rfl, rfl, by decide⟩

/-- C2, amended: for every value whose `to_sql` reports absence, the
assembled binding has `type = Some(sql_type())` (UnknownNull for the bare
absent Nullable itself), `fmt` absent, and `value = SingleBind ""` — the
assembler discards the absence flag and decodes the untouched empty
buffer as an ordinary empty text payload. -/
theorem C2_theorem (v : Value) (s : String)
    (h : to_sql v "" = .ok (s, none)) :
    tryFrom v =
      .ok { type_ := some (sql_type v), fmt := none, value := .singleBind "" } := by
  have hs : s = "" := absent_writes_nothing v "" s h
  subst hs
  simp [tryFrom, h]

/-- C2, witness: the amended claim instantiated on the absent Nullable,
whose `sql_type` is UnknownNull. -/
theorem C2_witness :
    to_sql (Value.opt none) "" = .ok ("", none) ∧
    tryFrom (Value.opt none) =
      .ok { type_ := some (sql_type (Value.opt none)), fmt := none,
            value := .singleBind "" } :=
  ⟨rfl, C2_theorem (Value.opt none) "" rfl⟩

/-- C3, counterexample: for the encodable value `v = None` (an absent
nested Nullable), wrapping as present gives `Some v : Option<Option<_>>`
whose `to_sql` returns "value written" (`Some(())`) while `v`'s own
`to_sql` returns "value absent" (`None`) — bytes, tag and format agree,
but the written/absent result does not. -/
theorem C3_counterexample :
    to_sql (Value.opt none) "" = .ok ("", none) ∧
    to_sql (Value.opt (some (Value.opt none))) "" = .ok ("", some ()) ∧
    sql_type (Value.opt (some (Value.opt none))) = sql_type (Value.opt none) ∧
    encode_format (Value.opt (some (Value.opt none))) =
      encode_format (Value.opt none) ∧
    (some () : Option Unit) ≠ (none : Option Unit) :=
  ⟨rfl, rfl, rfl, rfl, by decide⟩

/-- C3, amended: `Some(v)` has exactly `v`'s type tag and format hint, and
its `to_sql` writes exactly `v`'s bytes and propagates `v`'s error; its
result is "value written" whenever the inner call succeeds — coinciding
with `v`'s own result except when `v` itself reports absence (a nested
Nullable), where `v` reports absent but `Some(v)` reports written. -/
theorem C3_theorem (v : Value) (out : String) :
    sql_type (Value.opt (some v)) = sql_type v ∧
    encode_format (Value.opt (some v)) = encode_format v ∧
    to_sql (Value.opt (some v)) out =
      (to_sql v out).map (fun r => (r.1, some ())) := by
  refine ⟨rfl, rfl, ?_⟩
  simp only [to_sql]
  cases to_sql v out <;> rfl

/-- C4: the claim is right about the intent and the code is wrong: the
chrono format string `"%Y-%m-%d %H:%M:%S.%.3f"` writes a literal `.` and
then `%.3f`, which per chrono already includes its own leading dot, so a
valid naive timestamp such as 2024-03-05 01:02:03.004 renders with a
double dot `01:02:03..004` instead of the single-dot
`YYYY-MM-DD HH:MM:SS.mmm` the spec (and any consumer of the wire format)
requires.  The tag is TimestampNtz as claimed. -/
theorem C4_theorem :
    sql_type (Value.naiveDateTime ⟨2024, 3, 5, 1, 2, 3, 4000000⟩) =
      .timestampNtz ∧
    to_sql (Value.naiveDateTime ⟨2024, 3, 5, 1, 2, 3, 4000000⟩) "" =
      .ok ("2024-03-05 01:02:03..004", some ()) ∧
    "2024-03-05 01:02:03..004" ≠ "2024-03-05 01:02:03.004" :=
  ⟨rfl, rfl, by decide⟩

/-- C5: the Dynamic (`Variant`) wrapper reports type tag Variant for every
inner value while `to_sql` and `encode_format` delegate exactly to the
inner value. -/
theorem C5_theorem (v : Value) (out : String) :
    sql_type (Value.variant v) = .variant ∧
    to_sql (Value.variant v) out = to_sql v out ∧
    encode_format (Value.variant v) = encode_format v :=
  ⟨rfl, rfl, rfl⟩

/-- C6: for every supported integer width and every in-range value `i`,
encoding reports tag Fixed and appends `intToDecimal i`, which is the
canonical decimal string of `i`: an optional leading `-` exactly when
`i` is negative, followed by a nonempty run of decimal digit characters
with no leading zero (unless `i = 0`) whose value reads back as `|i|`. -/
theorem C6_theorem (w : IntWidth) (i : Int) (h : w.inRange i) (out : String) :
    sql_type (Value.int w i) = .fixed ∧
    to_sql (Value.int w i) out = .ok (out ++ intToDecimal i, some ()) ∧
    (intToDecimal i).data = (if i < 0 then ['-'] else []) ++ natToDigits i.natAbs ∧
    natToDigits i.natAbs ≠ [] ∧
    (∀ c ∈ natToDigits i.natAbs, 48 ≤ c.toNat ∧ c.toNat ≤ 57) ∧
    digitsToNat (natToDigits i.natAbs) = i.natAbs ∧
    ((natToDigits i.natAbs).head? = some '0' → i = 0) := by
  refine ⟨rfl, rfl, ?_, natToDigits_ne_nil _, natToDigits_mem _,
    digitsToNat_natToDigits _, ?_⟩
  · by_cases hneg : i < 0 <;> simp [intToDecimal, hneg]
  · intro hz
    by_contra hne
    exact natToDigits_head i.natAbs (Int.natAbs_ne_zero.mpr hne) hz

/-- C6, witness: the canonical-decimal claim instantiated at the `i8`
value `-5`, whose rendering is `"-5"`. -/
theorem C6_witness :
    IntWidth.inRange .i8 (-5) ∧ intToDecimal (-5) = "-5" ∧
    (sql_type (Value.int .i8 (-5)) = .fixed ∧
      to_sql (Value.int .i8 (-5)) "" =
        .ok ("" ++ intToDecimal (-5), some ()) ∧
      (intToDecimal (-5 : Int)).data =
        (if (-5 : Int) < 0 then ['-'] else []) ++ natToDigits (-5 : Int).natAbs ∧
      natToDigits (-5 : Int).natAbs ≠ [] ∧
      (∀ c ∈ natToDigits (-5 : Int).natAbs, 48 ≤ c.toNat ∧ c.toNat ≤ 57) ∧
      digitsToNat (natToDigits (-5 : Int).natAbs) = (-5 : Int).natAbs ∧
      ((natToDigits (-5 : Int).natAbs).head? = some '0' → (-5 : Int) = 0)) :=
  ⟨by decide, by decide, C6_theorem .i8 (-5) (by decide) ""⟩

/-- C7: the absent Nullable reports type tag UnknownNull, its `to_sql`
leaves the buffer untouched and returns the absent flag, and its
`encode_format` is the empty (absent) hint. -/
theorem C7_theorem (out : String) :
    sql_type (Value.opt none) = .unknownNull ∧
    to_sql (Value.opt none) out = .ok (out, none) ∧
    encode_format (Value.opt none) = "" :=
  ⟨rfl, rfl, rfl⟩

/-- C8: encoding is a pure function of the logical value.  In this
functional embedding `sql_type`, `to_sql` and `encode_format` are
functions, so two invocations on the same value are definitionally equal;
the substantive content proved here is that two `to_sql` runs against any
two buffers both reduce to the same fresh-buffer result with their
respective old contents prepended — the appended bytes, the presence flag
and any error depend only on the value. -/
theorem C8_theorem (v : Value) (out₁ out₂ : String) :
    to_sql v out₁ = (to_sql v "").map (fun r => (out₁ ++ r.1, r.2)) ∧
    to_sql v out₂ = (to_sql v "").map (fun r => (out₂ ++ r.1, r.2)) :=
  ⟨to_sql_append v out₁, to_sql_append v out₂⟩

/-- C9: every binding the assembler produces carries the single-text
shape; `MultiBind` is unreachable through `TryFrom`. -/
theorem C9_theorem (v : Value) (b : ParameterBinding)
    (h : tryFrom v = .ok b) :
    ∃ s, b.value = BindingValue.singleBind s := by
  cases hv : to_sql v "" with
  | error e => simp [tryFrom, hv] at h
  | ok r =>
    simp only [tryFrom, hv, Except.ok.injEq] at h
    exact ⟨r.1, by rw [← h]⟩

/-- C9, witness: the single-text-shape claim instantiated on the text
value `"hello"`. -/
theorem C9_witness :
    tryFrom (Value.str "hello") =
      .ok { type_ := some .text, fmt := none, value := .singleBind "hello" } ∧
    ∃ s, ({ type_ := some .text, fmt := none, value := .singleBind "hello" } :
      ParameterBinding).value = BindingValue.singleBind s :=
  ⟨rfl, C9_theorem (Value.str "hello") _ rfl⟩

/-- C10: every built-in primitive implementer — text, char, all integer
widths and both float widths — has an infallible `to_sql` that always
returns the "value written" flag. -/
theorem C10_theorem (s : String) (c : Char) (w : IntWidth) (i : Int)
    (fw : FloatWidth) (r : String) (out : String) :
    to_sql (Value.str s) out = .ok (out ++ s, some ()) ∧
    to_sql (Value.chr c) out = .ok (out ++ c.toString, some ()) ∧
    to_sql (Value.int w i) out = .ok (out ++ intToDecimal i, some ()) ∧
    to_sql (Value.real fw r) out = .ok (out ++ r, some ()) :=
  ⟨rfl, rfl, rfl, rfl⟩

end Snowflake
